import Mathlib

/-!
Verification of the conversation/message persistence model and the
message-routing contract of the rai-ai-assistant chat server.

The JavaScript sources are embedded shallowly:

* `analyzeIntent` — the keyword intent classifier of the chat controller;
* `checkLimits` / `updateUsage` — the subscription-limit logic of the user model;
* `addReaction`, `softDelete`, the message pre-save hook — message model;
* `shareWith`, `removeShare` — conversation model sharing list;
* `handleMessage`, `generateAIResponse`, `deleteConversation` — the
  orchestrator, modelled as a pure state transformer over an explicit
  document-store state, with the external AI providers given as
  per-turn outcome parameters.
-/

namespace RaiSpec

/-! ## JavaScript string primitives -/

/-- Does `pat` occur at the head of `s`?  The anchored-match loop inside
JavaScript `String.prototype.includes`. -/
def charsStart : List Char → List Char → Bool
  | _, [] => true
  | [], _ :: _ => false
  | a :: s, b :: p => a = b && charsStart s p

/-- Does `pat` occur anywhere in `s`?  JavaScript
`String.prototype.includes` on exploded strings. -/
def charsHave : List Char → List Char → Bool
  | [], pat => pat.isEmpty
  | a :: s, pat => charsStart (a :: s) pat || charsHave s pat

/-- JavaScript `message.toLowerCase()` (ASCII content). -/
def jsLower (s : String) : List Char :=
  s.toList.map Char.toLower

/-- `lowerMessage.includes(pat)` where `lowerMessage` is already a
lowered character list and `pat` a literal pattern. -/
def jsIncludes (s : List Char) (pat : String) : Bool :=
  charsHave s pat.toList

/-! ## Intent classifier (`ChatController.analyzeIntent`) -/

/-- The six intent categories returned by the classifier. -/
inductive IntentType
  | image_generation
  | code_generation
  | web_search
  | voice_command
  | document_analysis
  | text_response
deriving DecidableEq, Repr

/-- Classifier result: a category plus a confidence score. -/
structure Intent where
  type : IntentType
  confidence : ℚ
deriving DecidableEq, Repr

/-- `ChatController.analyzeIntent`: case-insensitive substring rules,
tried in source order, first match wins, defaulting to `text_response`. -/
def analyzeIntent (message : String) : Intent :=
  if jsIncludes (jsLower message) "generate" &&
      (jsIncludes (jsLower message) "image" || jsIncludes (jsLower message) "picture") then
    ⟨.image_generation, 9/10⟩
  else if jsIncludes (jsLower message) "create" &&
      (jsIncludes (jsLower message) "image" || jsIncludes (jsLower message) "picture") then
    ⟨.image_generation, 9/10⟩
  else if jsIncludes (jsLower message) "code" || jsIncludes (jsLower message) "program" ||
      jsIncludes (jsLower message) "function" then
    ⟨.code_generation, 8/10⟩
  else if jsIncludes (jsLower message) "write" &&
      (jsIncludes (jsLower message) "code" || jsIncludes (jsLower message) "script") then
    ⟨.code_generation, 9/10⟩
  else if jsIncludes (jsLower message) "search" || jsIncludes (jsLower message) "find" ||
      jsIncludes (jsLower message) "latest" then
    ⟨.web_search, 7/10⟩
  else if jsIncludes (jsLower message) "voice" || jsIncludes (jsLower message) "speak" ||
      jsIncludes (jsLower message) "audio" then
    ⟨.voice_command, 8/10⟩
  else if jsIncludes (jsLower message) "analyze" || jsIncludes (jsLower message) "document" ||
      jsIncludes (jsLower message) "file" then
    ⟨.document_analysis, 7/10⟩
  else
    ⟨.text_response, 9/10⟩

/-- Disjunction of all seven classifier rule triggers, in source order;
`analyzeIntent` falls through to its default exactly when this is false. -/
def anyRuleFires (message : String) : Bool :=
  (jsIncludes (jsLower message) "generate" &&
      (jsIncludes (jsLower message) "image" || jsIncludes (jsLower message) "picture")) ||
  (jsIncludes (jsLower message) "create" &&
      (jsIncludes (jsLower message) "image" || jsIncludes (jsLower message) "picture")) ||
  (jsIncludes (jsLower message) "code" || jsIncludes (jsLower message) "program" ||
      jsIncludes (jsLower message) "function") ||
  (jsIncludes (jsLower message) "write" &&
      (jsIncludes (jsLower message) "code" || jsIncludes (jsLower message) "script")) ||
  (jsIncludes (jsLower message) "search" || jsIncludes (jsLower message) "find" ||
      jsIncludes (jsLower message) "latest") ||
  (jsIncludes (jsLower message) "voice" || jsIncludes (jsLower message) "speak" ||
      jsIncludes (jsLower message) "audio") ||
  (jsIncludes (jsLower message) "analyze" || jsIncludes (jsLower message) "document" ||
      jsIncludes (jsLower message) "file")

/-! ## User model (`user.js`) -/

/-- The `subscription.plan` enum of the user schema. -/
inductive Plan
  | free
  | basic
  | premium
  | enterprise
deriving DecidableEq, Repr

/-- The `usage` counter sub-document of the user schema. -/
structure Usage where
  messagesSent : Nat
  imagesGenerated : Nat
  codeGenerated : Nat
deriving DecidableEq, Repr

/-- JavaScript property read `this.usage[key]` restricted to the numeric
counter fields; any other key yields `undefined` (`none`). -/
def usageLookup (u : Usage) (key : String) : Option Nat :=
  if key = "messagesSent" then some u.messagesSent
  else if key = "imagesGenerated" then some u.imagesGenerated
  else if key = "codeGenerated" then some u.codeGenerated
  else none

/-- JavaScript `a || b` on possibly-undefined numbers: `undefined` and
`0` are both falsy. -/
def jsOrNum (a b : Option Nat) : Option Nat :=
  match a with
  | some n => if n = 0 then b else some n
  | none => b

/-- JavaScript `a < b` where either side may be `undefined`: a comparison
against `undefined` is NaN-poisoned and evaluates to `false`. -/
def jsLt (a : Option Nat) (b : Option Int) : Bool :=
  match b, a with
  | some y, some x => decide ((x : Int) < y)
  | _, _ => false

/-- The `limits` table inside `userSchema.methods.checkLimits`;
`-1` encodes "unlimited", absence of the key yields `undefined`. -/
def limitsTable : Plan → String → Option Int
  | .free, ty =>
    if ty = "messages" then some 100
    else if ty = "images" then some 10
    else if ty = "code" then some 50
    else none
  | .basic, ty =>
    if ty = "messages" then some 1000
    else if ty = "images" then some 100
    else if ty = "code" then some 500
    else none
  | .premium, ty =>
    if ty = "messages" then some 10000
    else if ty = "images" then some 1000
    else if ty = "code" then some 5000
    else none
  | .enterprise, ty =>
    if ty = "messages" then some (-1)
    else if ty = "images" then some (-1)
    else if ty = "code" then some (-1)
    else none

/-- `userSchema.methods.checkLimits(type)`: looks up the plan limit, treats
`-1` as unlimited, and compares the "current" counter obtained from
`this.usage[type + "sSent"] || this.usage[type + "sGenerated"] ||
this.usage[type + "sGenerated"]` against the limit. -/
def checkLimits (plan : Plan) (usage : Usage) (ty : String) : Bool :=
  let limit := limitsTable plan ty
  if limit = some (-1) then true
  else
    let current :=
      jsOrNum (usageLookup usage (ty ++ "sSent"))
        (jsOrNum (usageLookup usage (ty ++ "sGenerated"))
          (usageLookup usage (ty ++ "sGenerated")))
    jsLt current limit

/-! ## Message reactions (`message.js`) -/

/-- One entry of `metadata.reactions`. -/
structure Reaction where
  userId : String
  type : String
  timestamp : Nat
deriving DecidableEq, Repr

/-- `messageSchema.methods.addReaction`: drop any existing reaction by
this user, then push the new one. -/
def addReaction (reactions : List Reaction) (userId reactionType : String)
    (now : Nat) : List Reaction :=
  (reactions.filter fun r => !(r.userId == userId)) ++ [⟨userId, reactionType, now⟩]

/-- `messageSchema.methods.removeReaction`. -/
def removeReaction (reactions : List Reaction) (userId : String) : List Reaction :=
  reactions.filter fun r => !(r.userId == userId)

/-- A sequence of `addReaction` calls `(userId, type, timestamp)` applied
in order. -/
def applyReactions (reactions : List Reaction)
    (ops : List (String × String × Nat)) : List Reaction :=
  ops.foldl (fun rs op => addReaction rs op.1 op.2.1 op.2.2) reactions

/-- The reaction type given in the latest call of user `u` of an `addReaction`
call sequence, when `u` made at least one call. -/
def lastTypeBy (u : String) (ops : List (String × String × Nat)) : Option String :=
  ((ops.filter fun op => op.1 == u).map fun op => op.2.1).getLast?

/-! ## Conversation sharing (`conversation.js`) -/

/-- One entry of the `sharedWith` array. -/
structure Share where
  userId : String
  permission : String
  addedAt : Nat
deriving DecidableEq, Repr

/-- In-place permission update of the entry JavaScript
`sharedWith.find(...)` returns, i.e. the first entry of this user. -/
def updateFirstPermission : List Share → String → String → List Share
  | [], _, _ => []
  | s :: rest, uid, perm =>
    if s.userId == uid then { s with permission := perm } :: rest
    else s :: updateFirstPermission rest uid perm

/-- `conversationSchema.methods.shareWith(userId, permission)`: if an
entry for this user exists, mutate its permission, else push a new entry. -/
def shareWith (sharedWith : List Share) (userId permission : String)
    (now : Nat) : List Share :=
  if sharedWith.any (fun share => share.userId == userId) then
    updateFirstPermission sharedWith userId permission
  else
    sharedWith ++ [⟨userId, permission, now⟩]

/-- `conversationSchema.methods.removeShare(userId)`. -/
def removeShare (sharedWith : List Share) (userId : String) : List Share :=
  sharedWith.filter fun share => !(share.userId == userId)

/-- One sharing-list operation. -/
inductive ShareOp
  | share (userId permission : String) (now : Nat)
  | unshare (userId : String)
deriving DecidableEq, Repr

/-- A sequence of sharing-list operations applied in order. -/
def applyShareOps (sharedWith : List Share) (ops : List ShareOp) : List Share :=
  ops.foldl
    (fun sw op =>
      match op with
      | .share uid perm now => shareWith sw uid perm now
      | .unshare uid => removeShare sw uid)
    sharedWith

/-! ## Document-store data model -/

/-- The slice of the schema-less `metadata` bag the embedded code paths
write; absent keys are `none`. -/
structure AIMetadata where
  intent : Option IntentType := none
  confidence : Option ℚ := none
  model : Option String := none
  provider : Option String := none
  language : Option String := none
  prompt : Option String := none
  query : Option String := none
  source : Option String := none
  timestamp : Option Nat := none
  originalCommand : Option String := none
  processed : Option Bool := none
  documentLength : Option Nat := none
  analysisType : Option String := none
  error : Option Bool := none
deriving DecidableEq, Repr

/-- A persisted `Message` document. -/
structure MessageDoc where
  id : Nat
  conversationId : Nat
  sender : String
  content : String
  messageType : String
  metadata : AIMetadata := {}
  timestamp : Nat
  isDeleted : Bool := false
  deletedAt : Option Nat := none
  deletedBy : Option String := none
deriving DecidableEq, Repr

/-- A persisted `Conversation` document. -/
structure ConversationDoc where
  id : Nat
  userId : String
  title : String
  lastMessage : Option String := none
  messageCount : Nat := 0
  sharedWith : List Share := []
  updatedAt : Nat := 0
deriving DecidableEq, Repr

/-- The document store: user ids, conversations, messages, and a fresh-id
counter standing in for ObjectId generation. -/
structure DB where
  users : List String
  conversations : List ConversationDoc
  messages : List MessageDoc
  nextId : Nat
deriving DecidableEq, Repr

/-- Lookup of a conversation by id (`Conversation.findById`). -/
def convById (db : DB) (cid : Nat) : Option ConversationDoc :=
  db.conversations.find? fun c => c.id == cid

/-- `Conversation.findByIdAndUpdate(cid, {$inc: {messageCount: 1}})`. -/
def convIncCount (convs : List ConversationDoc) (cid : Nat) : List ConversationDoc :=
  convs.map fun c => if c.id == cid then { c with messageCount := c.messageCount + 1 } else c

/-- Saving a new message: the save hook of `messageSchema` first issues
the `$inc: {messageCount: 1}` update on its conversation (only for new
documents), then the document is inserted. -/
def saveNewMessage (db : DB) (m : MessageDoc) : DB :=
  { db with
      conversations := convIncCount db.conversations m.conversationId,
      messages := db.messages ++ [m] }

/-- `messageSchema.methods.softDelete(userId)`: flip `isDeleted`, record
deletor and time, save.  The save is not of a new document, so the
pre-save hook does not touch `messageCount`. -/
def softDeleteMsg (db : DB) (mid : Nat) (userId : String) (now : Nat) : DB :=
  { db with
      messages := db.messages.map fun m =>
        if m.id == mid then
          { m with isDeleted := true, deletedAt := some now, deletedBy := some userId }
        else m }

/-- One message-level operation on a fixed conversation `cid`: create a
fresh message, or soft-delete an existing one. -/
inductive MsgOp
  | create (id : Nat) (sender content messageType : String) (ts : Nat)
  | softDel (mid : Nat) (userId : String) (now : Nat)
deriving DecidableEq, Repr

/-- Apply one `MsgOp` to the store, targeting conversation `cid`. -/
def applyMsgOp (cid : Nat) (db : DB) : MsgOp → DB
  | .create id sender content messageType ts =>
    saveNewMessage db
      { id := id, conversationId := cid, sender := sender, content := content,
        messageType := messageType, timestamp := ts }
  | .softDel mid userId now => softDeleteMsg db mid userId now

/-- Apply a sequence of message-level operations in order. -/
def applyMsgOps (cid : Nat) (db : DB) (ops : List MsgOp) : DB :=
  ops.foldl (applyMsgOp cid) db

/-- Number of messages persisted under conversation `cid`, soft-deleted
ones included. -/
def totalMsgCount (db : DB) (cid : Nat) : Nat :=
  db.messages.countP fun m => m.conversationId == cid

/-- Number of messages of conversation `cid` with `isDeleted = false`. -/
def liveMsgCount (db : DB) (cid : Nat) : Nat :=
  db.messages.countP fun m => m.conversationId == cid && !m.isDeleted

/-! ## AI provider gateway (`aiService.js`) -/

/-- Per-turn outcomes of the external provider calls: each field is the
result the named remote capability would produce for this turn, either a
payload or a thrown error. -/
structure ProviderEnv where
  openaiText : Except String String
  gemini : Except String String
  openaiImage : Except String String
  openaiCode : Except String String
deriving Repr

/-- Normalized gateway result `{content, type, metadata}`. -/
structure AIResult where
  content : String
  type : String
  metadata : AIMetadata
deriving Repr

/-- The hard-coded content `generateWithGemini` returns when the Gemini
call also fails. -/
def geminiFallbackContent : String :=
  "I\x27m here to help! I can assist you with various tasks including text generation, code creation, image generation, and more. What would you like to work on?"

/-- The hard-coded apologetic content of the catch block of `generateAIResponse`. -/
def apologyContent : String :=
  "I apologize, but I\x27m having trouble processing your request right now. Please try again in a moment."

/-- `AIService.generateWithGemini`: on success a Gemini-tagged result, on
failure the fixed fallback tagged with model `fallback` and provider `rai`.
Never throws. -/
def generateWithGemini (env : ProviderEnv) : AIResult :=
  match env.gemini with
  | .ok content =>
    ⟨content, "text", { model := some "gemini-pro", provider := some "google" }⟩
  | .error _ =>
    ⟨geminiFallbackContent, "text", { model := some "fallback", provider := some "rai" }⟩

/-- `AIService.generateTextResponse`: try OpenAI first; on failure fall
back to `generateWithGemini`.  The message, history and user shape the
prompt only, which is opaque inside the provider outcome. -/
def generateTextResponse (env : ProviderEnv) (message : String)
    (history : List MessageDoc) : AIResult :=
  match env.openaiText with
  | .ok content =>
    ⟨content, "text", { model := some "gpt-4", provider := some "openai" }⟩
  | .error _ => generateWithGemini env

/-- `AIService.detectLanguage`: keyword heuristics on the lowered code. -/
def detectLanguage (code : String) : String :=
  let lowerCode := jsLower code
  if jsIncludes lowerCode "function" && jsIncludes lowerCode "const" &&
      jsIncludes lowerCode "=>" then "javascript"
  else if jsIncludes lowerCode "def " || jsIncludes lowerCode "import " then "python"
  else if jsIncludes lowerCode "public class" ||
      jsIncludes lowerCode "public static" then "java"
  else if jsIncludes lowerCode "#include" || jsIncludes lowerCode "int main" then "cpp"
  else if jsIncludes lowerCode "<?php" then "php"
  else if jsIncludes lowerCode "html" || jsIncludes lowerCode "<!DOCTYPE" then "html"
  else if jsIncludes lowerCode "css" ||
      (jsIncludes lowerCode "\x7b" && jsIncludes lowerCode ":") then "css"
  else "unknown"

/-- `AIService.generateImage`: DALL-E call; the catch block logs and
rethrows, so a provider failure propagates. -/
def generateImage (env : ProviderEnv) (prompt : String) : Except String AIResult :=
  match env.openaiImage with
  | .ok url =>
    .ok ⟨url, "image",
      { model := some "dall-e-3", provider := some "openai", prompt := some prompt }⟩
  | .error e => .error e

/-- `AIService.generateCode`: code-focused OpenAI call; failures
propagate. -/
def generateCode (env : ProviderEnv) (message : String) : Except String AIResult :=
  match env.openaiCode with
  | .ok content =>
    .ok ⟨content, "code",
      { model := some "gpt-4", provider := some "openai",
        language := some (detectLanguage content) }⟩
  | .error e => .error e

/-- `AIService.webSearch`: delegates to `generateTextResponse` with a
search prompt and rewraps the result.  Never throws. -/
def webSearch (env : ProviderEnv) (query : String) (now : Nat) : AIResult :=
  let searchResponse := generateTextResponse env
    ("Search for the latest information about: " ++ query ++
      ". Provide current and accurate information.") []
  ⟨searchResponse.content, "search_result",
    { query := some query, source := some "web_search", timestamp := some now }⟩

/-- `AIService.processVoiceCommand`: delegates to `generateTextResponse`.
Never throws. -/
def processVoiceCommand (env : ProviderEnv) (command : String) : AIResult :=
  let response := generateTextResponse env
    ("Process this voice command: " ++ command ++
      ". Provide a helpful response and suggest any actions that could be taken.") []
  ⟨response.content, "voice_command",
    { originalCommand := some command, processed := some true }⟩

/-- `AIService.analyzeDocument`: delegates to `generateTextResponse`.
Never throws. -/
def analyzeDocument (env : ProviderEnv) (documentContent : String)
    (now : Nat) : AIResult :=
  let response := generateTextResponse env
    ("Analyze the following document and provide a comprehensive summary with key insights: "
      ++ documentContent) []
  ⟨response.content, "document_analysis",
    { documentLength := some documentContent.length,
      analysisType := some "comprehensive", timestamp := some now }⟩

/-! ## Conversation orchestrator (`chatController.js`) -/

/-- Ordering used by `.sort({ timestamp: 1 })`. -/
def byTimestamp (a b : MessageDoc) : Prop :=
  a.timestamp ≤ b.timestamp

instance : DecidableRel byTimestamp :=
  fun a b => Nat.decLe a.timestamp b.timestamp

instance : IsTotal MessageDoc byTimestamp :=
  ⟨fun a b => Nat.le_total a.timestamp b.timestamp⟩

instance : IsTrans MessageDoc byTimestamp :=
  ⟨fun _ _ _ => Nat.le_trans⟩

/-- Descending ordering, `.sort({ timestamp: -1 })`. -/
def byTimestampDesc (a b : MessageDoc) : Prop :=
  b.timestamp ≤ a.timestamp

instance : DecidableRel byTimestampDesc :=
  fun a b => Nat.decLe b.timestamp a.timestamp

/-- The context fetch of `generateAIResponse`:
`Message.find({conversationId}).sort({timestamp: 1}).limit(10)` — all
messages of the conversation in ascending time order, truncated to the
first ten. -/
def contextHistory (db : DB) (conversationId : Nat) : List MessageDoc :=
  (List.insertionSort byTimestamp
    (db.messages.filter fun m => m.conversationId == conversationId)).take 10

/-- What the spec sentence asks for instead: the ten most recent messages
of the conversation, presented in ascending time order. -/
def specContextMostRecent (db : DB) (conversationId : Nat) : List MessageDoc :=
  ((List.insertionSort byTimestampDesc
    (db.messages.filter fun m => m.conversationId == conversationId)).take 10).reverse

/-- `ChatController.generateAIResponse`: fetch context, classify intent,
dispatch on the intent type, and merge intent/confidence into the result
metadata; any error thrown by the dispatched call is caught and converted
into the fixed apologetic result whose metadata is exactly
`{error: true}`. -/
def generateAIResponse (env : ProviderEnv) (db : DB) (message : String)
    (conversationId : Nat) (now : Nat) : AIResult :=
  let history := contextHistory db conversationId
  let intent := analyzeIntent message
  let dispatched : Except String AIResult :=
    match intent.type with
    | .image_generation => generateImage env message
    | .code_generation => generateCode env message
    | .web_search => .ok (webSearch env message now)
    | .document_analysis => .ok (analyzeDocument env message now)
    | .voice_command => .ok (processVoiceCommand env message)
    | .text_response => .ok (generateTextResponse env message history)
  match dispatched with
  | .ok response =>
    ⟨response.content, response.type,
      { response.metadata with
          intent := some intent.type, confidence := some intent.confidence }⟩
  | .error _ => ⟨apologyContent, "text", { error := some true }⟩

/-- `message.substring(0, n)` on ASCII content. -/
def jsSubstringTo (s : String) (n : Nat) : String :=
  String.mk (s.toList.take n)

/-- Targeted conversation update the orchestrator performs twice per turn:
`conversation.lastMessage = text; conversation.updatedAt = new Date();
conversation.save()` (only the modified paths are written back). -/
def updateConvMeta (db : DB) (cid : Nat) (lastMessageText : String)
    (now : Nat) : DB :=
  { db with
      conversations := db.conversations.map fun c =>
        if c.id == cid then
          { c with lastMessage := some lastMessageText, updatedAt := now }
        else c }

/-- The `userMessage` part of the emitted response. -/
structure UserMsgOut where
  id : Nat
  content : String
  type : String
  timestamp : Nat
deriving DecidableEq, Repr

/-- The `aiMessage` part of the emitted response. -/
structure AIMsgOut where
  id : Nat
  content : String
  type : String
  metadata : AIMetadata
  timestamp : Nat
deriving DecidableEq, Repr

/-- The `conversation` part of the emitted response. -/
structure ConvOut where
  id : Nat
  title : String
  updatedAt : Nat
deriving DecidableEq, Repr

/-- The exchange result `handleMessage` returns to the socket layer. -/
structure TurnResponse where
  conversationId : Nat
  userMessage : UserMsgOut
  aiMessage : AIMsgOut
  conversation : ConvOut
deriving DecidableEq, Repr

/-- `ChatController.handleMessage`, as a state transformer: the returned
store reflects every write performed before a throw, and a thrown error
surfaces as `Except.error`.  Steps in source order: validate user, resolve
or create the conversation (ownership-checked), persist the user message,
update the conversation summary, generate the AI response (which never
throws), persist the AI message, update the summary again, and return the
exchange. -/
def handleMessage (env : ProviderEnv) (db : DB) (userId : String)
    (message : String) (conversationId : Option Nat) (messageType : String)
    (now : Nat) : DB × Except String TurnResponse :=
  if !(db.users.contains userId) then
    (db, .error "User not found")
  else
    let resolved : Except String (DB × ConversationDoc) :=
      match conversationId with
      | some cid =>
        match db.conversations.find? (fun c => c.id == cid) with
        | none => .error "Conversation not found or access denied"
        | some conversation =>
          if conversation.userId == userId then .ok (db, conversation)
          else .error "Conversation not found or access denied"
      | none =>
        let conversation : ConversationDoc :=
          { id := db.nextId, userId := userId,
            title := jsSubstringTo message 50 ++ "...", updatedAt := now }
        .ok ({ db with
                conversations := db.conversations ++ [conversation],
                nextId := db.nextId + 1 },
             conversation)
    match resolved with
    | .error e => (db, .error e)
    | .ok (db1, conversation) =>
      let userMessage : MessageDoc :=
        { id := db1.nextId, conversationId := conversation.id, sender := "user",
          content := message, messageType := messageType, timestamp := now }
      let db2 := saveNewMessage { db1 with nextId := db1.nextId + 1 } userMessage
      let db3 := updateConvMeta db2 conversation.id message now
      let aiResponse := generateAIResponse env db3 message conversation.id now
      let aiMessage : MessageDoc :=
        { id := db3.nextId, conversationId := conversation.id, sender := "ai",
          content := aiResponse.content, messageType := aiResponse.type,
          metadata := aiResponse.metadata, timestamp := now }
      let db4 := saveNewMessage { db3 with nextId := db3.nextId + 1 } aiMessage
      let db5 := updateConvMeta db4 conversation.id aiResponse.content now
      (db5,
       .ok { conversationId := conversation.id,
             userMessage :=
               ⟨userMessage.id, message, messageType, userMessage.timestamp⟩,
             aiMessage :=
               ⟨aiMessage.id, aiResponse.content, aiResponse.type,
                 aiResponse.metadata, aiMessage.timestamp⟩,
             conversation := ⟨conversation.id, conversation.title, now⟩ })

/-- `ChatController.deleteConversation`:
`Conversation.findOneAndDelete({_id, userId})` — atomically removes the
conversation only when the requester owns it — then, only on a hit,
`Message.deleteMany({conversationId})`. -/
def deleteConversation (db : DB) (userId : String) (conversationId : Nat) :
    DB × Except String Bool :=
  match db.conversations.find? (fun c => c.id == conversationId && c.userId == userId) with
  | none => (db, .error "Conversation not found")
  | some _ =>
    let db1 := { db with
      conversations :=
        db.conversations.eraseP fun c => c.id == conversationId && c.userId == userId }
    let db2 := { db1 with
      messages := db1.messages.filter fun m => !(m.conversationId == conversationId) }
    (db2, .ok true)

/-! ## Concrete fixtures -/

/-- A store holding a single registered user and nothing else. -/
def dbOneUser : DB :=
  { users := ["u1"], conversations := [], messages := [], nextId := 1 }

/-- Provider outcomes where every external call fails. -/
def envBothFail : ProviderEnv :=
  ⟨.error "down", .error "down", .error "down", .error "down"⟩

/-- Provider outcomes where every external call succeeds. -/
def envAllOk : ProviderEnv :=
  ⟨.ok "text reply", .ok "gemini reply", .ok "http-image", .ok "code reply"⟩

/-- A store with one user owning one fresh, empty conversation. -/
def dbMsgCountInit : DB :=
  { users := ["u1"],
    conversations := [{ id := 1, userId := "u1", title := "t" }],
    messages := [], nextId := 2 }

/-- A store where conversation 1 belongs to `u2`, with one message. -/
def dbOtherOwner : DB :=
  { users := ["u1", "u2"],
    conversations := [{ id := 1, userId := "u2", title := "t" }],
    messages := [{ id := 2, conversationId := 1, sender := "user", content := "x",
                   messageType := "text", timestamp := 0 }],
    nextId := 3 }

/-- Message `i` of the eleven-message fixture: id and timestamp both `i`. -/
def mkCtxMsg (i : Nat) : MessageDoc :=
  { id := i, conversationId := 1, sender := "user", content := "m",
    messageType := "text", timestamp := i }

/-- A store whose conversation 1 holds eleven messages with ascending
timestamps 1..11. -/
def dbEleven : DB :=
  { users := ["u1"],
    conversations := [{ id := 1, userId := "u1", title := "t", messageCount := 11 }],
    messages := (List.range 11).map (fun i => mkCtxMsg (i + 1)),
    nextId := 100 }

/-! ## Helper lemmas -/

theorem jsLt_none (a : Option Nat) : jsLt a none = false := by
  cases a <;> rfl

theorem checkLimits_free_basic_premium (plan : Plan) (hplan : plan ≠ Plan.enterprise)
    (usage : Usage) (ty : String) : checkLimits plan usage ty = false := by
  have hignore : ∀ lim : Option Int, lim ≠ some (-1) →
      (∀ l, lim = some l → ¬(ty = "messages" ∨ ty = "images" ∨ ty = "code")) → True :=
    fun _ _ _ => trivial
  clear hignore
  cases plan with
  | enterprise => exact absurd rfl hplan
  | free =>
    by_cases h1 : ty = "messages"
    · subst h1; rfl
    by_cases h2 : ty = "images"
    · subst h2; rfl
    by_cases h3 : ty = "code"
    · subst h3; rfl
    have hlim : limitsTable Plan.free ty = none := by
      simp [limitsTable, h1, h2, h3]
    simp [checkLimits, hlim, jsLt_none]
  | basic =>
    by_cases h1 : ty = "messages"
    · subst h1; rfl
    by_cases h2 : ty = "images"
    · subst h2; rfl
    by_cases h3 : ty = "code"
    · subst h3; rfl
    have hlim : limitsTable Plan.basic ty = none := by
      simp [limitsTable, h1, h2, h3]
    simp [checkLimits, hlim, jsLt_none]
  | premium =>
    by_cases h1 : ty = "messages"
    · subst h1; rfl
    by_cases h2 : ty = "images"
    · subst h2; rfl
    by_cases h3 : ty = "code"
    · subst h3; rfl
    have hlim : limitsTable Plan.premium ty = none := by
      simp [limitsTable, h1, h2, h3]
    simp [checkLimits, hlim, jsLt_none]

/-! ## Claim theorems -/

/-- C5 counterexample: on the input "write code", whose lowercase form
contains both "write" and "code", the classifier returns confidence 0.80,
not the 0.90 the claim asserts, because in the source the generic
code rule is checked before the write-and-code rule. -/
theorem write_code_confidence_counterexample :
    analyzeIntent "write code" = ⟨.code_generation, 8/10⟩ ∧ ((8 : ℚ)/10) ≠ 9/10 :=
  ⟨rfl, by norm_num⟩

/-- C5 (amended): for every message whose lowercase form contains both
"write" and "code" and which triggers neither image-generation rule,
classify returns category code_generation with confidence 0.80, because
the generic "code"-or-"program"-or-"function" rule precedes the
"write"-and-("code"-or-"script") rule in the rule order of the source and the
first matching rule wins. -/
theorem write_and_code_hits_generic_rule (message : String)
    (hw : jsIncludes (jsLower message) "write" = true)
    (hc : jsIncludes (jsLower message) "code" = true)
    (h1 : (jsIncludes (jsLower message) "generate" &&
      (jsIncludes (jsLower message) "image" ||
        jsIncludes (jsLower message) "picture")) = false)
    (h2 : (jsIncludes (jsLower message) "create" &&
      (jsIncludes (jsLower message) "image" ||
        jsIncludes (jsLower message) "picture")) = false) :
    analyzeIntent message = ⟨.code_generation, 8/10⟩ := by
  have hkeep : jsIncludes (jsLower message) "write" = true := hw
  clear hkeep
  simp [analyzeIntent, h1, h2, hc]

/-- C5 witness: the amended theorem applied at "write more code". -/
theorem write_and_code_hits_generic_rule_witness :
    analyzeIntent "write more code" = ⟨.code_generation, 8/10⟩ :=
  write_and_code_hits_generic_rule "write more code" rfl rfl rfl rfl

/-- C6: the classifier is total, pure and deterministic (it is a Lean
function); its confidence always lies in [0,1]; when no rule fires it
falls back to (text_response, 0.90); and the three example inputs
classify as the spec states. -/
theorem analyzeIntent_contract :
    (∀ message : String,
      0 ≤ (analyzeIntent message).confidence ∧ (analyzeIntent message).confidence ≤ 1) ∧
    (∀ message : String, anyRuleFires message = false →
      analyzeIntent message = ⟨.text_response, 9/10⟩) ∧
    analyzeIntent "Generate an image of a cat" = ⟨.image_generation, 9/10⟩ ∧
    analyzeIntent "Write a script to sort a list" = ⟨.code_generation, 9/10⟩ ∧
    analyzeIntent "What\x27s the weather" = ⟨.text_response, 9/10⟩ := by
  refine ⟨?_, ?_, rfl, rfl, rfl⟩
  · intro message
    simp only [analyzeIntent]
    split_ifs <;> norm_num
  · intro message h
    simp only [anyRuleFires, Bool.or_eq_false_iff, and_assoc] at h
    obtain ⟨h1, h2, h3a, h3b, h3c, h4, h5a, h5b, h5c, h6a, h6b, h6c, h7a, h7b, h7c⟩ := h
    simp [analyzeIntent, h1, h2, h3a, h3b, h3c, h4, h5a, h5b, h5c, h6a, h6b, h6c,
      h7a, h7b, h7c]
    intro hw
    rw [hw, h3a] at h4
    simpa using h4

/-- C6 witness: the fallback clause of the contract applied at a
concrete input matching no rule. -/
theorem analyzeIntent_contract_witness :
    anyRuleFires "Hello there" = false ∧
    analyzeIntent "Hello there" = ⟨.text_response, 9/10⟩ :=
  ⟨rfl, analyzeIntent_contract.2.1 "Hello there" rfl⟩

/-- C9: for plans free, basic and premium, `checkLimits` returns false
for every type argument regardless of the usage counters — the lookup
keys `type + "sSent"` / `type + "sGenerated"` never name an existing
usage field when the type matches a limit-table key, so the current
counter is `undefined` and the JavaScript comparison is false; it returns
true exactly for the enterprise plan with type "messages", "images" or
"code". -/
theorem checkLimits_characterization :
    (∀ plan : Plan, plan ≠ Plan.enterprise →
      ∀ (usage : Usage) (ty : String), checkLimits plan usage ty = false) ∧
    (∀ (usage : Usage) (ty : String),
      checkLimits Plan.enterprise usage ty = true ↔
        (ty = "messages" ∨ ty = "images" ∨ ty = "code")) := by
  constructor
  · exact checkLimits_free_basic_premium
  · intro usage ty
    by_cases h1 : ty = "messages"
    · subst h1; simp [checkLimits, limitsTable]
    by_cases h2 : ty = "images"
    · subst h2; simp [checkLimits, limitsTable]
    by_cases h3 : ty = "code"
    · subst h3; simp [checkLimits, limitsTable]
    have hlim : limitsTable Plan.enterprise ty = none := by
      simp [limitsTable, h1, h2, h3]
    simp [checkLimits, hlim, jsLt_none, h1, h2, h3]

/-- C9 witness: a free-plan user far over every ceiling still gets
`false` for "messages", and an enterprise user gets `true` for "code". -/
theorem checkLimits_characterization_witness :
    checkLimits Plan.free ⟨1000000, 1000000, 1000000⟩ "messages" = false ∧
    checkLimits Plan.enterprise ⟨0, 0, 0⟩ "code" = true :=
  ⟨checkLimits_characterization.1 Plan.free (by decide) ⟨1000000, 1000000, 1000000⟩
      "messages",
   (checkLimits_characterization.2 ⟨0, 0, 0⟩ "code").mpr (Or.inr (Or.inr rfl))⟩

theorem filter_addReaction_self (rs : List Reaction) (u t : String) (ts : Nat) :
    (addReaction rs u t ts).filter (fun r => r.userId == u) = [⟨u, t, ts⟩] := by
  simp only [addReaction, List.filter_append, List.filter_filter,
    Bool.not_and_self]
  simp

theorem filter_addReaction_other (rs : List Reaction) (u v t : String) (ts : Nat)
    (hvu : (v == u) = false) :
    (addReaction rs v t ts).filter (fun r => r.userId == u) =
      rs.filter (fun r => r.userId == u) := by
  simp only [addReaction, List.filter_append, List.filter_filter]
  have hsingle : List.filter (fun r => r.userId == u) [(⟨v, t, ts⟩ : Reaction)] = [] := by
    simp [hvu]
  rw [hsingle, List.append_nil]
  refine List.filter_congr (fun a _ => ?_)
  by_cases hv : a.userId = v
  · simp [hv, hvu]
  · have hb : (a.userId == v) = false := beq_eq_false_iff_ne.mpr hv
    simp [hb]

theorem applyReactions_concat (rs : List Reaction)
    (ops : List (String × String × Nat)) (op : String × String × Nat) :
    applyReactions rs (ops ++ [op]) =
      addReaction (applyReactions rs ops) op.1 op.2.1 op.2.2 := by
  simp [applyReactions, List.foldl_append]

/-- C8: after any sequence of `addReaction` calls containing at least one
call by user `u` (in particular after two or more), the reactions list
holds exactly one reaction by `u`, and its type is the one of the latest call of `u`. -/
theorem addReaction_latest_wins (ops : List (String × String × Nat))
    (rs : List Reaction) (u t : String)
    (hlast : lastTypeBy u ops = some t) :
    ((applyReactions rs ops).filter (fun r => r.userId == u)).map
      (fun r => (r.userId, r.type)) = [(u, t)] := by
  induction ops using List.reverseRecOn generalizing rs t with
  | nil => simp [lastTypeBy] at hlast
  | append_singleton ops' op ih =>
    by_cases hu : op.1 = u
    · have hbeq : (op.1 == u) = true := beq_iff_eq.mpr hu
      have hlast' : lastTypeBy u (ops' ++ [op]) = some op.2.1 := by
        simp [lastTypeBy, List.filter_append, hbeq, List.getLast?_concat]
      rw [hlast'] at hlast
      obtain rfl : op.2.1 = t := Option.some.inj hlast
      rw [applyReactions_concat, ← hu, filter_addReaction_self]
      simp [hu]
    · have hbeq : (op.1 == u) = false := beq_eq_false_iff_ne.mpr hu
      have hlast' : lastTypeBy u (ops' ++ [op]) = lastTypeBy u ops' := by
        simp [lastTypeBy, List.filter_append, hbeq]
      rw [hlast'] at hlast
      rw [applyReactions_concat, filter_addReaction_other _ _ _ _ _ hbeq]
      exact ih rs t hlast

/-- C8 witness: reacting "like" then "love" as the same user leaves
exactly the single latest reaction. -/
theorem addReaction_latest_wins_witness :
    ((applyReactions [] [("u1", "like", 1), ("u1", "love", 2)]).filter
      (fun r => r.userId == "u1")).map (fun r => (r.userId, r.type)) =
      [("u1", "love")] :=
  addReaction_latest_wins [("u1", "like", 1), ("u1", "love", 2)] [] "u1" "love" rfl

theorem map_userId_updateFirstPermission (sw : List Share) (uid perm : String) :
    (updateFirstPermission sw uid perm).map (fun s => s.userId) =
      sw.map (fun s => s.userId) := by
  induction sw with
  | nil => rfl
  | cons s rest ih =>
    simp only [updateFirstPermission]
    by_cases h : (s.userId == uid) = true
    · simp [h]
    · simp only [Bool.not_eq_true] at h
      simp [h, ih]

theorem countP_userId_updateFirstPermission (sw : List Share) (uid perm u : String) :
    (updateFirstPermission sw uid perm).countP (fun s => s.userId == u) =
      sw.countP (fun s => s.userId == u) := by
  have hm := map_userId_updateFirstPermission sw uid perm
  have := congrArg (List.countP (fun x => x == u)) hm
  simpa [List.countP_map, Function.comp] using this

theorem shareOps_preserve_at_most_one (ops : List ShareOp) (sw : List Share)
    (h : ∀ u : String, sw.countP (fun s => s.userId == u) ≤ 1) :
    ∀ u : String, (applyShareOps sw ops).countP (fun s => s.userId == u) ≤ 1 := by
  induction ops generalizing sw with
  | nil => exact h
  | cons op rest ih =>
    refine ih _ ?_
    intro u
    cases op with
    | share uid perm now =>
      simp only [shareWith]
      by_cases hany : sw.any (fun share => share.userId == uid) = true
      · rw [if_pos hany, countP_userId_updateFirstPermission]
        exact h u
      · rw [if_neg hany, List.countP_append]
        by_cases huu : uid = u
        · subst huu
          have h0 : sw.countP (fun s => s.userId == uid) = 0 := by
            refine List.countP_eq_zero.mpr (fun a ha hpa => ?_)
            exact hany (List.any_eq_true.mpr ⟨a, ha, hpa⟩)
          simp [h0, List.countP_cons]
        · have hb : (uid == u) = false := beq_eq_false_iff_ne.mpr huu
          have h1 : List.countP (fun s => s.userId == u)
              [(⟨uid, perm, now⟩ : Share)] = 0 := by
            simp [List.countP_cons, hb]
          rw [h1]
          simpa using h u
    | unshare uid =>
      simp only [removeShare]
      exact le_trans ((List.filter_sublist sw).countP_le _) (h u)

/-- C10: starting from the schema default (empty sharing list), any
sequence of `shareWith` / `removeShare` operations leaves at most one
`sharedWith` entry per target user; and `shareWith` on an already-shared
user rewrites the permission of that entry in place, leaving the user-id list
unchanged rather than appending a second entry. -/
theorem sharedWith_at_most_one_entry :
    (∀ (ops : List ShareOp) (u : String),
      (applyShareOps [] ops).countP (fun s => s.userId == u) ≤ 1) ∧
    (∀ (sw : List Share) (uid perm : String) (now : Nat),
      sw.any (fun share => share.userId == uid) = true →
        (shareWith sw uid perm now).map (fun s => s.userId) =
          sw.map (fun s => s.userId)) := by
  constructor
  · intro ops u
    exact shareOps_preserve_at_most_one ops [] (by intro v; simp) u
  · intro sw uid perm now h
    simp [shareWith, h, map_userId_updateFirstPermission]

/-- C10 witness: sharing twice with the same user keeps a single entry,
and re-sharing leaves the user-id list unchanged. -/
theorem sharedWith_at_most_one_entry_witness :
    (applyShareOps []
      [ShareOp.share "u2" "read" 1, ShareOp.share "u2" "write" 2]).countP
      (fun s => s.userId == "u2") ≤ 1 ∧
    (shareWith [⟨"u2", "read", 1⟩] "u2" "admin" 5).map (fun s => s.userId) =
      ([⟨"u2", "read", 1⟩] : List Share).map (fun s => s.userId) :=
  ⟨sharedWith_at_most_one_entry.1 _ "u2",
   sharedWith_at_most_one_entry.2 [⟨"u2", "read", 1⟩] "u2" "admin" 5 rfl⟩

theorem countP_map_self_preserve {α : Type} (l : List α) (f : α → α)
    (p : α → Bool) (hf : ∀ a, p (f a) = p a) :
    (l.map f).countP p = l.countP p := by
  rw [List.countP_map]
  exact List.countP_congr (fun a _ => by rw [Function.comp_apply, hf a])

/-- C1 counterexample: create one message under conversation 1, then
soft-delete it.  The field `messageCount` of the conversation stays at 1 while the
number of non-deleted messages is 0 — the soft-delete path never
decrements the counter, so the claimed invariant fails. -/
theorem messageCount_softDelete_counterexample :
    (convById (applyMsgOps 1 dbMsgCountInit
        [MsgOp.create 10 "user" "hi" "text" 5, MsgOp.softDel 10 "u1" 6]) 1).map
      (fun c => c.messageCount) = some 1 ∧
    liveMsgCount (applyMsgOps 1 dbMsgCountInit
        [MsgOp.create 10 "user" "hi" "text" 5, MsgOp.softDel 10 "u1" 6]) 1 = 0 ∧
    (convById (applyMsgOps 1 dbMsgCountInit
        [MsgOp.create 10 "user" "hi" "text" 5, MsgOp.softDel 10 "u1" 6]) 1).map
      (fun c => c.messageCount) ≠
      some (liveMsgCount (applyMsgOps 1 dbMsgCountInit
        [MsgOp.create 10 "user" "hi" "text" 5, MsgOp.softDel 10 "u1" 6]) 1) := by
  refine ⟨rfl, rfl, by decide⟩

/-- C1 (amended): after any sequence of message-create and
message-soft-delete operations, `messageCount` equals the number of
messages ever persisted under the conversation, soft-deleted ones
included — creates increment it via the pre-save hook and soft-deletes
leave it unchanged. -/
theorem messageCount_counts_all_messages (cid : Nat) (ops : List MsgOp) (db : DB)
    (h : ∀ c ∈ db.conversations, c.id = cid → c.messageCount = totalMsgCount db cid) :
    ∀ c ∈ (applyMsgOps cid db ops).conversations, c.id = cid →
      c.messageCount = totalMsgCount (applyMsgOps cid db ops) cid := by
  induction ops generalizing db with
  | nil => exact h
  | cons op rest ih =>
    refine ih (applyMsgOp cid db op) ?_
    intro c hc hcid
    cases op with
    | create id sender content messageType ts =>
      simp only [applyMsgOp, saveNewMessage, convIncCount] at hc ⊢
      obtain ⟨c', hc', rfl⟩ := List.mem_map.mp hc
      have htot : totalMsgCount
          { db with
              conversations := db.conversations.map fun c =>
                if c.id == cid then { c with messageCount := c.messageCount + 1 }
                else c,
              messages := db.messages ++
                [{ id := id, conversationId := cid, sender := sender,
                   content := content, messageType := messageType,
                   timestamp := ts }] } cid = totalMsgCount db cid + 1 := by
        simp [totalMsgCount, List.countP_append, List.countP_cons]
      rw [htot]
      by_cases hb : (c'.id == cid) = true
      · rw [if_pos hb] at hcid ⊢
        have := h c' hc' (by simpa using hcid)
        show c'.messageCount + 1 = totalMsgCount db cid + 1
        rw [this]
      · rw [if_neg hb] at hcid ⊢
        exact absurd (beq_iff_eq.mpr hcid) hb
    | softDel mid userId now =>
      simp only [applyMsgOp, softDeleteMsg] at hc ⊢
      have htot : totalMsgCount
          { db with
              messages := db.messages.map fun m =>
                if m.id == mid then
                  { m with isDeleted := true, deletedAt := some now,
                           deletedBy := some userId }
                else m } cid = totalMsgCount db cid := by
        simp only [totalMsgCount]
        refine countP_map_self_preserve db.messages _ _ (fun m => ?_)
        by_cases hm : (m.id == mid) = true
        · rw [if_pos hm]
        · rw [if_neg hm]
      rw [htot]
      exact h c hc hcid

/-- C1 witness: the amended invariant evaluated after one create and one
soft-delete — the resulting conversation record carries count 1, the
total number of persisted messages. -/
theorem messageCount_counts_all_messages_witness :
    (⟨1, "u1", "t", none, 1, [], 0⟩ : ConversationDoc).messageCount =
      totalMsgCount (applyMsgOps 1 dbMsgCountInit
        [MsgOp.create 10 "user" "hi" "text" 5, MsgOp.softDel 10 "u1" 6]) 1 :=
  messageCount_counts_all_messages 1
    [MsgOp.create 10 "user" "hi" "text" 5, MsgOp.softDel 10 "u1" 6]
    dbMsgCountInit (by decide) ⟨1, "u1", "t", none, 1, [], 0⟩ (by decide) rfl

/-- C3: a turn naming a conversation that does not exist, or whose owner
is not the calling user, fails with the access/not-found error before any
write — the store is returned unchanged, so no conversation is created or
modified and no message is persisted; likewise `deleteConversation` by a
non-owner errors and deletes neither the conversation nor any message. -/
theorem unauthorized_turn_aborts_before_writes
    (env : ProviderEnv) (db : DB) (userId message messageType : String)
    (cid now : Nat)
    (hconv : ∀ c ∈ db.conversations, c.id = cid → c.userId ≠ userId) :
    ((handleMessage env db userId message (some cid) messageType now).1 = db ∧
      ∃ e, (handleMessage env db userId message (some cid) messageType now).2 =
        .error e) ∧
    ((deleteConversation db userId cid).1 = db ∧
      (deleteConversation db userId cid).2 = .error "Conversation not found") := by
  constructor
  · by_cases hu : userId ∈ db.users
    · cases hfind : db.conversations.find? (fun c => c.id == cid) with
      | none =>
        refine ⟨by simp [handleMessage, hu, hfind],
          "Conversation not found or access denied", ?_⟩
        simp [handleMessage, hu, hfind]
      | some c =>
        have hc : c ∈ db.conversations := List.mem_of_find?_eq_some hfind
        have hcid : c.id = cid := by
          have hp := List.find?_some hfind
          exact beq_iff_eq.mp hp
        have hne : c.userId ≠ userId := hconv c hc hcid
        have hbeq : (c.userId == userId) = false := beq_eq_false_iff_ne.mpr hne
        refine ⟨by simp [handleMessage, hu, hfind, hbeq],
          "Conversation not found or access denied", ?_⟩
        simp [handleMessage, hu, hfind, hbeq]
    · refine ⟨by simp [handleMessage, hu], "User not found", ?_⟩
      simp [handleMessage, hu]
  · have hnone :
        db.conversations.find? (fun c => c.id == cid && c.userId == userId) = none := by
      refine List.find?_eq_none.mpr (fun c hc hp => ?_)
      simp only [Bool.and_eq_true, beq_iff_eq] at hp
      exact hconv c hc hp.1 hp.2
    exact ⟨by simp [deleteConversation, hnone], by simp [deleteConversation, hnone]⟩

/-- C3 witness: user `u1` targeting the conversation owned by `u2`
changes nothing via either entry point. -/
theorem unauthorized_turn_aborts_before_writes_witness :
    (handleMessage envAllOk dbOtherOwner "u1" "hello" (some 1) "text" 7).1 =
      dbOtherOwner ∧
    (deleteConversation dbOtherOwner "u1" 1).1 = dbOtherOwner ∧
    (deleteConversation dbOtherOwner "u1" 1).2 = .error "Conversation not found" := by
  have h := unauthorized_turn_aborts_before_writes envAllOk dbOtherOwner "u1"
    "hello" "text" 1 7 (by decide)
  exact ⟨h.1.1, h.2.1, h.2.2⟩

/-- C4 counterexample: with eleven messages (timestamps 1..11) in the
conversation, the fetched context is messages 1..10 — the ten oldest —
while the ten most recent in ascending order would be 2..11; the most
recent message is excluded. -/
theorem context_not_most_recent_counterexample :
    (contextHistory dbEleven 1).map (fun m => m.id) =
      [1, 2, 3, 4, 5, 6, 7, 8, 9, 10] ∧
    (specContextMostRecent dbEleven 1).map (fun m => m.id) =
      [2, 3, 4, 5, 6, 7, 8, 9, 10, 11] ∧
    (contextHistory dbEleven 1).map (fun m => m.id) ≠
      (specContextMostRecent dbEleven 1).map (fun m => m.id) := by
  refine ⟨rfl, rfl, by decide⟩

/-- C4 (amended): the context passed to the gateway is the ten EARLIEST
messages of the conversation — `.sort({timestamp: 1}).limit(10)` keeps
the first ten of the ascending order — presented in ascending time order:
it is sorted ascending, has length `min 10 (message count)`, and every
message in it is no later than any conversation message left out. -/
theorem contextHistory_earliest_ascending (db : DB) (cid : Nat) :
    List.Sorted byTimestamp (contextHistory db cid) ∧
    (contextHistory db cid).length =
      min 10 (db.messages.filter (fun m => m.conversationId == cid)).length ∧
    ∀ x ∈ contextHistory db cid, ∀ y ∈ db.messages,
      y.conversationId = cid → y ∉ contextHistory db cid →
        x.timestamp ≤ y.timestamp := by
  have hsort : List.Sorted byTimestamp
      (List.insertionSort byTimestamp
        (db.messages.filter fun m => m.conversationId == cid)) :=
    List.sorted_insertionSort byTimestamp _
  refine ⟨?_, ?_, ?_⟩
  · exact List.Pairwise.sublist (List.take_sublist 10 _) hsort
  · show (List.take 10 _).length = _
    rw [List.length_take, (List.perm_insertionSort byTimestamp _).length_eq]
  · intro x hx y hy hycid hynot
    have hyl : y ∈ db.messages.filter (fun m => m.conversationId == cid) :=
      List.mem_filter.mpr ⟨hy, beq_iff_eq.mpr hycid⟩
    have hys : y ∈ List.insertionSort byTimestamp
        (db.messages.filter fun m => m.conversationId == cid) :=
      (List.perm_insertionSort byTimestamp _).mem_iff.mpr hyl
    set s := List.insertionSort byTimestamp
        (db.messages.filter fun m => m.conversationId == cid) with hs
    have hyd : y ∈ s.drop 10 := by
      rcases List.mem_append.mp
          (show y ∈ s.take 10 ++ s.drop 10 by
            rw [List.take_append_drop]; exact hys) with h | h
      · exact absurd h hynot
      · exact h
    have hpw : List.Pairwise byTimestamp (s.take 10 ++ s.drop 10) := by
      rw [List.take_append_drop]; exact hsort
    exact (List.pairwise_append.mp hpw).2.2 x hx y hyd

/-- C4 witness: in the eleven-message fixture the earliest context entry
precedes the excluded most-recent message, and the context is sorted. -/
theorem contextHistory_earliest_ascending_witness :
    List.Sorted byTimestamp (contextHistory dbEleven 1) ∧
    (mkCtxMsg 1).timestamp ≤ (mkCtxMsg 11).timestamp :=
  ⟨(contextHistory_earliest_ascending dbEleven 1).1,
   (contextHistory_earliest_ascending dbEleven 1).2.2 (mkCtxMsg 1) (by decide)
     (mkCtxMsg 11) (by decide) rfl (by decide)⟩

theorem handleMessage_none_eq (env : ProviderEnv) (db : DB)
    (userId message messageType : String) (now : Nat)
    (huser : userId ∈ db.users) :
    handleMessage env db userId message none messageType now =
      (let conv0 : ConversationDoc :=
         { id := db.nextId, userId := userId,
           title := jsSubstringTo message 50 ++ "...", updatedAt := now }
       let userMsg : MessageDoc :=
         { id := db.nextId + 1, conversationId := db.nextId, sender := "user",
           content := message, messageType := messageType, timestamp := now }
       let db3 : DB :=
         updateConvMeta
           (saveNewMessage
             { db with conversations := db.conversations ++ [conv0],
                       nextId := db.nextId + 2 } userMsg)
           db.nextId message now
       let ai := generateAIResponse env db3 message db.nextId now
       let aiMsg : MessageDoc :=
         { id := db.nextId + 2, conversationId := db.nextId, sender := "ai",
           content := ai.content, messageType := ai.type, metadata := ai.metadata,
           timestamp := now }
       let db5 : DB :=
         updateConvMeta (saveNewMessage { db3 with nextId := db.nextId + 3 } aiMsg)
           db.nextId ai.content now
       (db5,
        .ok { conversationId := db.nextId,
              userMessage := ⟨db.nextId + 1, message, messageType, now⟩,
              aiMessage := ⟨db.nextId + 2, ai.content, ai.type, ai.metadata, now⟩,
              conversation := ⟨db.nextId, conv0.title, now⟩ })) := by
  have hcond : (!db.users.contains userId) = false := by simp [huser]
  unfold handleMessage
  rw [hcond]
  rfl

/-- C7: a successful turn with no `conversationId` creates exactly one
new conversation — owned by the calling user and titled with the first 50
characters of the message plus the "..." marker — and persists exactly two
new messages for it, one with sender "user" and one with sender "ai". -/
theorem first_turn_creates_conversation_and_two_messages
    (env : ProviderEnv) (db : DB) (userId message messageType : String) (now : Nat)
    (huser : userId ∈ db.users)
    (hfreshC : ∀ c ∈ db.conversations, c.id ≠ db.nextId)
    (hfreshM : ∀ m ∈ db.messages, m.conversationId ≠ db.nextId) :
    (∃ r, (handleMessage env db userId message none messageType now).2 = .ok r) ∧
    (handleMessage env db userId message none messageType now).1.conversations.length =
      db.conversations.length + 1 ∧
    ((handleMessage env db userId message none messageType now).1.conversations.filter
      (fun c => c.id == db.nextId)).map (fun c => (c.userId, c.title)) =
      [(userId, jsSubstringTo message 50 ++ "...")] ∧
    (handleMessage env db userId message none messageType now).1.messages.length =
      db.messages.length + 2 ∧
    ((handleMessage env db userId message none messageType now).1.messages.filter
      (fun m => m.conversationId == db.nextId)).map (fun m => m.sender) =
      ["user", "ai"] := by
  rw [handleMessage_none_eq env db userId message messageType now huser]
  refine ⟨⟨_, rfl⟩, ?_, ?_, ?_, ?_⟩
  · simp [saveNewMessage, updateConvMeta, convIncCount]
  · simp only [saveNewMessage, updateConvMeta, convIncCount]
    simp [List.filter_map, Function.comp, List.filter_append,
      apply_ite (fun c : ConversationDoc => c.id), ite_self]
    exact fun c hc => by simp [hfreshC c hc]
  · simp [saveNewMessage, updateConvMeta]
  · simp only [saveNewMessage, updateConvMeta, convIncCount]
    simp [List.filter_append]
    exact fun m hm => by simp [hfreshM m hm]

/-- C7 witness: the first turn of a fresh store. -/
theorem first_turn_creates_conversation_and_two_messages_witness :
    ((handleMessage envAllOk dbOneUser "u1" "Hi" none "text" 0).1.conversations.filter
      (fun c => c.id == dbOneUser.nextId)).map (fun c => (c.userId, c.title)) =
      [("u1", jsSubstringTo "Hi" 50 ++ "...")] ∧
    ((handleMessage envAllOk dbOneUser "u1" "Hi" none "text" 0).1.messages.filter
      (fun m => m.conversationId == dbOneUser.nextId)).map (fun m => m.sender) =
      ["user", "ai"] := by
  have h := first_turn_creates_conversation_and_two_messages envAllOk dbOneUser
    "u1" "Hi" "text" 0 (by decide) (by decide) (by decide)
  exact ⟨h.2.2.1, h.2.2.2.2⟩

theorem generateTextResponse_both_fail (env : ProviderEnv) (message : String)
    (history : List MessageDoc) (e1 e2 : String)
    (h1 : env.openaiText = .error e1) (h2 : env.gemini = .error e2) :
    generateTextResponse env message history =
      ⟨geminiFallbackContent, "text",
        { model := some "fallback", provider := some "rai" }⟩ := by
  simp [generateTextResponse, generateWithGemini, h1, h2]

theorem generateAIResponse_text_both_fail (env : ProviderEnv) (db : DB)
    (message : String) (cid now : Nat) (e1 e2 : String)
    (hintent : (analyzeIntent message).type = .text_response)
    (h1 : env.openaiText = .error e1) (h2 : env.gemini = .error e2) :
    generateAIResponse env db message cid now =
      ⟨geminiFallbackContent, "text",
        { model := some "fallback", provider := some "rai",
          intent := some .text_response,
          confidence := some (analyzeIntent message).confidence }⟩ := by
  simp only [generateAIResponse, hintent]
  rw [generateTextResponse_both_fail env message (contextHistory db cid) e1 e2 h1 h2]

/-- C2 counterexample: with both the primary and the fallback text
providers failing, the turn completes with the fixed "here to help"
fallback content whose metadata carries provider `rai` and NO
`error: true` marker — contradicting the claim that the metadata of the AI message marks `error: true` in this situation. -/
theorem bothFail_no_error_marker_counterexample :
    ((handleMessage envBothFail dbOneUser "u1" "Hello there" none "text" 0).2.toOption.map
      (fun r => (r.aiMessage.content, r.aiMessage.metadata.error))) =
      some (geminiFallbackContent, none) ∧
    (none : Option Bool) ≠ some true :=
  ⟨rfl, by decide⟩

theorem handleMessage_some_eq (env : ProviderEnv) (db : DB)
    (userId message messageType : String) (now cid : Nat) (c : ConversationDoc)
    (huser : userId ∈ db.users)
    (hfind : db.conversations.find? (fun x => x.id == cid) = some c)
    (hown : (c.userId == userId) = true) :
    handleMessage env db userId message (some cid) messageType now =
      (let userMsg : MessageDoc :=
         { id := db.nextId, conversationId := c.id, sender := "user",
           content := message, messageType := messageType, timestamp := now }
       let db3 : DB :=
         updateConvMeta (saveNewMessage { db with nextId := db.nextId + 1 } userMsg)
           c.id message now
       let ai := generateAIResponse env db3 message c.id now
       let aiMsg : MessageDoc :=
         { id := db.nextId + 1, conversationId := c.id, sender := "ai",
           content := ai.content, messageType := ai.type, metadata := ai.metadata,
           timestamp := now }
       let db5 : DB :=
         updateConvMeta (saveNewMessage { db3 with nextId := db.nextId + 2 } aiMsg)
           c.id ai.content now
       (db5,
        .ok { conversationId := c.id,
              userMessage := ⟨db.nextId, message, messageType, now⟩,
              aiMessage := ⟨db.nextId + 1, ai.content, ai.type, ai.metadata, now⟩,
              conversation := ⟨c.id, c.title, now⟩ })) := by
  have hcond : (!db.users.contains userId) = false := by simp [huser]
  unfold handleMessage
  rw [hcond]
  simp only [hfind, hown]
  rfl

/-- C2 (amended): for every resolvable turn — a fresh conversation or an
existing one owned by the caller — in which both the primary and the
fallback text providers fail on a text-classified message,
`handleMessage` still does not throw: it returns a result whose AI
message carries the fixed fallback content tagged with model `fallback`
and provider `rai` and no error marker — the `error: true` metadata
arises only when the dispatched gateway call itself throws — and the
user message persisted before the AI call remains persisted. -/
theorem bothFail_degraded_turn (env : ProviderEnv) (db : DB)
    (userId message messageType : String) (now : Nat)
    (conversationId : Option Nat)
    (huser : userId ∈ db.users)
    (hresolve : conversationId = none ∨
      ∃ cid c, conversationId = some cid ∧
        db.conversations.find? (fun x => x.id == cid) = some c ∧
        c.userId = userId)
    (hintent : (analyzeIntent message).type = .text_response)
    (e1 e2 : String)
    (h1 : env.openaiText = .error e1) (h2 : env.gemini = .error e2) :
    ∃ r, (handleMessage env db userId message conversationId messageType now).2 =
        .ok r ∧
      r.aiMessage.content = geminiFallbackContent ∧
      r.aiMessage.metadata.model = some "fallback" ∧
      r.aiMessage.metadata.provider = some "rai" ∧
      r.aiMessage.metadata.error = none ∧
      ∃ m ∈ (handleMessage env db userId message conversationId messageType
          now).1.messages,
        m.sender = "user" ∧ m.content = message := by
  rcases hresolve with rfl | ⟨cid, c, rfl, hfind, hownEq⟩
  · rw [handleMessage_none_eq env db userId message messageType now huser]
    dsimp only
    rw [generateAIResponse_text_both_fail env _ message db.nextId now e1 e2 hintent h1 h2]
    refine ⟨_, rfl, rfl, rfl, rfl, rfl, ?_⟩
    refine ⟨{ id := db.nextId + 1, conversationId := db.nextId, sender := "user",
              content := message, messageType := messageType, timestamp := now },
            ?_, rfl, rfl⟩
    simp [saveNewMessage, updateConvMeta]
  · rw [handleMessage_some_eq env db userId message messageType now cid c huser
      hfind (beq_iff_eq.mpr hownEq)]
    dsimp only
    rw [generateAIResponse_text_both_fail env _ message c.id now e1 e2 hintent h1 h2]
    refine ⟨_, rfl, rfl, rfl, rfl, rfl, ?_⟩
    refine ⟨{ id := db.nextId, conversationId := c.id, sender := "user",
              content := message, messageType := messageType, timestamp := now },
            ?_, rfl, rfl⟩
    simp [saveNewMessage, updateConvMeta]

/-- C2 witness: the amended theorem applied at a concrete store and
failing provider environment, once for a fresh-conversation turn and
once for a turn on an existing conversation owned by the caller. -/
theorem bothFail_degraded_turn_witness :
    (∃ r, (handleMessage envBothFail dbOneUser "u1" "Hello there" none "text" 0).2 =
        .ok r ∧
      r.aiMessage.content = geminiFallbackContent ∧
      r.aiMessage.metadata.model = some "fallback" ∧
      r.aiMessage.metadata.provider = some "rai" ∧
      r.aiMessage.metadata.error = none ∧
      ∃ m ∈ (handleMessage envBothFail dbOneUser "u1" "Hello there" none
          "text" 0).1.messages,
        m.sender = "user" ∧ m.content = "Hello there") ∧
    (∃ r, (handleMessage envBothFail dbMsgCountInit "u1" "Hello there" (some 1)
          "text" 0).2 = .ok r ∧
      r.aiMessage.content = geminiFallbackContent ∧
      r.aiMessage.metadata.model = some "fallback" ∧
      r.aiMessage.metadata.provider = some "rai" ∧
      r.aiMessage.metadata.error = none ∧
      ∃ m ∈ (handleMessage envBothFail dbMsgCountInit "u1" "Hello there" (some 1)
          "text" 0).1.messages,
        m.sender = "user" ∧ m.content = "Hello there") :=
  ⟨bothFail_degraded_turn envBothFail dbOneUser "u1" "Hello there" "text" 0 none
      (by decide) (Or.inl rfl) rfl "down" "down" rfl rfl,
   bothFail_degraded_turn envBothFail dbMsgCountInit "u1" "Hello there" "text" 0
      (some 1) (by decide)
      (Or.inr ⟨1, ⟨1, "u1", "t", none, 0, [], 0⟩, rfl, rfl, rfl⟩)
      rfl "down" "down" rfl rfl⟩

end RaiSpec
